import Mathlib

/-!
Shallow embedding of the jd-spider crawler (src/main.py) and verification of
its specified behaviour.  Python strings are modelled as Lean `String` /
`List Char`; the filesystem as a finite map `String → Option String`;
the asyncio event loop's serialized effects as left folds; fallible
network and codec calls as explicit outcome values.
-/

namespace JdSpider

/- ### Python string primitives -/

/-- Membership test of a list as a prefix of another, element by element;
used to model Python's substring operator. -/
def hasPref : List Char → List Char → Bool
  | [], _ => true
  | _ :: _, [] => false
  | a :: as, b :: bs => a = b && hasPref as bs

/-- Contiguous-substring test: `hasSub n h` is true iff `n` occurs
contiguously inside `h`. -/
def hasSub (n : List Char) : List Char → Bool
  | [] => hasPref n []
  | b :: bs => hasPref n (b :: bs) || hasSub n bs

/-- Python's `needle in hay` on strings: contiguous substring containment. -/
def pyIn (needle hay : String) : Bool :=
  hasSub needle.toList hay.toList

/-- The ASCII whitespace characters removed by Python's `str.strip()`
(space, tab, line feed, carriage return, vertical tab, form feed).
`str.strip()` also removes some further Unicode spaces, which never arise
in the claims considered here. -/
def pyIsSpace (c : Char) : Bool :=
  c = ' ' || c = '\t' || c = '\n' || c = '\x0d' || c = '\x0b' || c = '\x0c'

/-- Python's `str.strip()`: drop leading and trailing whitespace. -/
def pyStrip (l : List Char) : List Char :=
  ((l.dropWhile pyIsSpace).reverse.dropWhile pyIsSpace).reverse

/-- The character set removed by `fix_name` (src/main.py line 104): the
Python literal `'$/:?*"<>\\|'`. -/
def badChars : List Char :=
  ['$', '/', ':', '?', '*', '"', '<', '>', '\\', '|']

/-- The loop `for key in '$/:?*"<>\\|': name = name.replace(key, "")`:
each pass deletes every occurrence of one character. -/
def removeBad (l : List Char) : List Char :=
  badChars.foldl (fun acc k => acc.filter (fun c => c ≠ k)) l

/-- `fix_name` (src/main.py lines 103-106): delete the special characters,
then `strip()` surrounding whitespace. -/
def fixName (l : List Char) : List Char :=
  pyStrip (removeBad l)

/-- `fix_name` acting on `String`. -/
def fixNameS (s : String) : String :=
  String.mk (fixName s.toList)

/- ### quote_plus and the search URL -/

/-- UTF-8 encoding of a code point, as a list of byte values. -/
def utf8Bytes (c : Char) : List Nat :=
  let n := c.toNat
  if n < 0x80 then [n]
  else if n < 0x800 then [0xC0 + n / 0x40, 0x80 + n % 0x40]
  else if n < 0x10000 then
    [0xE0 + n / 0x1000, 0x80 + (n / 0x40) % 0x40, 0x80 + n % 0x40]
  else
    [0xF0 + n / 0x40000, 0x80 + (n / 0x1000) % 0x40,
     0x80 + (n / 0x40) % 0x40, 0x80 + n % 0x40]

/-- Bytes that `urllib.parse.quote_plus` leaves unescaped: ASCII letters,
digits, and `_.-~`. -/
def quoteSafe (b : Nat) : Bool :=
  (48 ≤ b && b ≤ 57) || (65 ≤ b && b ≤ 90) || (97 ≤ b && b ≤ 122) ||
  b = 45 || b = 46 || b = 95 || b = 126

/-- Hexadecimal digit characters used in percent escapes. -/
def hexDigit (n : Nat) : Char :=
  (['0', '1', '2', '3', '4', '5', '6', '7', '8', '9',
    'A', 'B', 'C', 'D', 'E', 'F'].getD n '0')

/-- Encoding of one byte under `quote_plus`: safe bytes pass through,
a space becomes `+`, anything else becomes `%XX`. -/
def quoteByte (b : Nat) : List Char :=
  if quoteSafe b then [Char.ofNat b]
  else if b = 32 then ['+']
  else ['%', hexDigit (b / 16), hexDigit (b % 16)]

/-- `urllib.parse.quote_plus` over the UTF-8 bytes of a string. -/
def quotePlus (s : String) : String :=
  String.mk ((s.toList.flatMap utf8Bytes).flatMap quoteByte)

/-- `ITEM_NAME` (src/main.py line 29). -/
def ITEM_NAME : String := "明日方舟"

/-- `QUOTE_NAME = quote_plus(ITEM_NAME)` (src/main.py line 30). -/
def QUOTE_NAME : String := quotePlus ITEM_NAME

/-- The target URL built by `jd_spider` for a zero-based page index
(src/main.py line 261). -/
def jdUrl (page : Nat) : String :=
  "https://search.jd.com/Search?keyword=" ++ QUOTE_NAME ++ "&page=" ++
    toString (page * 2 + 1)

/- ### Snapshots and the scroll loop -/

/-- One extraction snapshot: the six parallel field sequences returned by
`grab` (src/main.py line 247). -/
structure Snap where
  names : List String
  prices : List String
  urls : List String
  comments : List String
  shops : List String
  imgUrls : List String
deriving DecidableEq, Repr

/-- Python's cross-type equality test `0 == l` between the int `0` and a
list: no numeric/list coercion exists, so it is always `False`. -/
def pyZeroEqList (_l : List String) : Bool := false

/-- The test `0 in newdata` (src/main.py line 161): Python membership on
the six-tuple of lists compares `0` with each component list in turn. -/
def zeroMem (s : Snap) : Bool :=
  pyZeroEqList s.names || pyZeroEqList s.prices || pyZeroEqList s.urls ||
  pyZeroEqList s.comments || pyZeroEqList s.shops || pyZeroEqList s.imgUrls

/-- The anti-bot location test inside the scroll loop (src/main.py
line 169): current URL mentions `passport.jd` or `cfe.m.jd`. -/
def breakCond (url : String) : Bool :=
  pyIn "passport.jd" url || pyIn "cfe.m.jd" url

/-- Python's `min(map(len, result))` over the six field sequences. -/
def minLen6 (s : Snap) : Nat :=
  ((((s.names.length.min s.prices.length).min s.urls.length).min
      s.comments.length).min s.shops.length).min s.imgUrls.length

/-- The scroll loop body of `scroll` (src/main.py lines 156-171).
`grab k` is the snapshot produced by the `k`-th call of `grab` (call 0 is
the one before the loop), `url k` the browser location observed after
iteration `k` (1-based).  Returns the final snapshot together with the
number of loop iterations executed. -/
def scrollGo (grab : Nat → Snap) (url : Nat → String) :
    Nat → Nat → Snap → Snap × Nat
  | 0, _, data => (data, 0)
  | fuel + 1, k, data =>
    if zeroMem (grab (k + 1)) then (data, 1)
    else if breakCond (url (k + 1)) then (grab (k + 1), 1)
    else ((scrollGo grab url fuel (k + 1) (grab (k + 1))).1,
          (scrollGo grab url fuel (k + 1) (grab (k + 1))).2 + 1)

/-- `scroll` (src/main.py lines 138-171): initial grab, then at most 12
iterations of the loop. -/
def scrollModel (grab : Nat → Snap) (url : Nat → String) : Snap × Nat :=
  scrollGo grab url 12 0 (grab 0)

/-- One listing record assembled by `jd_spider` (src/main.py
lines 300-312). -/
structure Rec where
  name : String
  price : String
  url : String
  comment : String
  shop : String
  imgUrl : String
deriving DecidableEq, Repr

/-- Python's `zip` over six lists, truncating to the shortest, realized
as nested binary zips (Lean has no variadic zip; the truncation
semantics coincide). -/
def zip6 (a b c d e f : List String) : List Rec :=
  (((((a.zip b).zip c).zip d).zip e).zip f).map
    (fun x => ⟨x.1.1.1.1.1, x.1.1.1.1.2, x.1.1.1.2, x.1.1.2, x.1.2, x.2⟩)

/-- The record-assembly step of `jd_spider` (src/main.py lines 300-312):
zip the six field sequences of the snapshot into records. -/
def toRecords (s : Snap) : List Rec :=
  zip6 s.names s.prices s.urls s.comments s.shops s.imgUrls

/-- The anti-bot login-redirect test of `jd_spider` (src/main.py
line 276): location mentions `passport.jd` and the minimum field-sequence
length is below 20. -/
def loginRedirect (url : String) (s : Snap) : Bool :=
  pyIn "passport.jd" url && decide (minLen6 s < 20)

/-- The retry structure of `jd_spider` (src/main.py lines 276-295): each
attempt observes a browser location and a scroll result; on the
login-redirect condition, and likewise on the `cfe.m.jd` captcha
condition (after the human completes the challenge), `jd_spider(page)` is
re-invoked for the same page index; otherwise the snapshot is accepted.
`attempts` lists the environment seen by each successive attempt. -/
def jdRun (page : Nat) : List (String × Snap) → Option (Nat × Snap)
  | [] => none
  | (url, snap) :: rest =>
    if loginRedirect url snap then jdRun page rest
    else if pyIn "cfe.m.jd" url then jdRun page rest
    else some (page, snap)

/- ### Media fetch -/

/-- Python's `str.split(sep)` for a one-character separator: split into
the (possibly empty) pieces between occurrences of the separator. -/
def splitOnChar (sep : Char) : List Char → List (List Char)
  | [] => [[]]
  | c :: rest =>
    if c = sep then [] :: splitOnChar sep rest
    else
      match splitOnChar sep rest with
      | [] => [[c]]
      | r :: rs => (c :: r) :: rs

/-- Python's `url.split(".")[-1]`: the piece after the last dot. -/
def extOf (url : String) : String :=
  String.mk ((splitOnChar '.' url.toList).getLastD [])

/-- The image path derived by `get_img` (src/main.py line 330),
relative to `IMAGES_DIR`: `fix_name(name) + "." + url.split(".")[-1]`. -/
def derivedPath (name url : String) : String :=
  fixNameS name ++ "." ++ extOf url

/-- Outcome of `session.get(url)` / `resp.read()` / `fp.write_bytes` for
one URL: a response with an HTTP status and body (aiohttp does not raise
on non-2xx statuses), an `aiohttp.ClientError`, or any other exception
(e.g. a failure while writing the file). -/
inductive Net
  | resp (status : Nat) (body : String)
  | clientError
  | otherError
deriving DecidableEq, Repr

/-- Whether the network outcome is an HTTP response (of any status). -/
def Net.isResp : Net → Bool
  | .resp _ _ => true
  | _ => false

/-- A log line printed by `get_img`'s exception handlers (src/main.py
lines 335-340): `ClientError` prints the failing URL, any other
exception prints the file path. -/
inductive LogEntry
  | clientFail (url : String)
  | saveFail (fp : String)
deriving DecidableEq, Repr

/-- The filesystem: a map from path to file content. -/
def FS : Type := String → Option String

/-- Write (create or overwrite) a file. -/
def fsWrite (p c : String) (fs : FS) : FS :=
  fun q => if q = p then some c else fs q

/-- Remove a file. -/
def fsRemove (p : String) (fs : FS) : FS :=
  fun q => if q = p then none else fs q

/-- The empty filesystem. -/
def fsEmpty : FS := fun _ => none

/-- State threaded through the download coroutines of one `jd_spider`
call: the filesystem, the `fps` list of successfully-saved paths, the
error log, and the trace of HTTP GETs issued. -/
structure FetchState where
  fs : FS
  fps : List String
  log : List LogEntry
  attempts : List String

/-- `get_img` (src/main.py lines 329-342): derive the path, issue the
GET; on a response write the body to the path (overwriting whatever is
there) and append the path to `fps`; on `ClientError` log the URL; on any
other exception log the path; failures are swallowed. -/
def getImg (net : String → Net) (st : FetchState) (url name : String) :
    FetchState :=
  let fp := derivedPath name url
  match net url with
  | .resp _ body =>
    { st with
        fs := fsWrite fp body st.fs
        fps := st.fps ++ [fp]
        attempts := st.attempts ++ [url] }
  | .clientError =>
    { st with
        log := st.log ++ [.clientFail url]
        attempts := st.attempts ++ [url] }
  | .otherError =>
    { st with
        log := st.log ++ [.saveFail fp]
        attempts := st.attempts ++ [url] }

/-- A batch of downloads awaited by one `asyncio.gather` call
(src/main.py line 351); the event loop serializes the coroutines'
effects. -/
def runBatch (net : String → Net) (st : FetchState)
    (items : List (String × String)) : FetchState :=
  items.foldl (fun s it => getImg net s it.1 it.2) st

/-- `step = 5` (src/main.py line 345). -/
def imgStep : Nat := 5

/-- The batching loop of `jd_spider` (src/main.py lines 346-351):
`for i in range(len(img_urls) // step)` with the items
`img_urls[i*step : (i+1)*step]` per batch. -/
def mediaBatches (urls : List α) : List (List α) :=
  (List.range (urls.length / imgStep)).map
    (fun i => (urls.drop (i * imgStep)).take imgStep)

/- ### Media normalisation -/

/-- The PNG path of `solve_image` (src/main.py line 133):
`fp.parent / (fp.name + ".png")`. -/
def pngName (fp : String) : String := fp ++ ".png"

/-- `solve_image` under `safe_run` (src/main.py lines 129-135).
`ok fp = (openOk, saveOk)` says whether `Image.open` and the
`exif_transpose(...).save` re-encode succeed for that file; `encode` is
the (external, uninterpreted) PIL transpose-and-re-encode content
transformation.  On success the PNG is written and then the source is
removed; an exception at either step is caught by `safe_run`, leaving the
filesystem untouched from that point on. -/
def solveImage (encode : String → String) (ok : String → Bool × Bool)
    (fs : FS) (fp : String) : FS :=
  if (ok fp).1 then
    if (ok fp).2 then
      fsRemove fp (fsWrite (pngName fp) (encode ((fs fp).getD "")) fs)
    else fs
  else fs

/- ### Lemmas about `fix_name` -/

/-- The head surviving a `dropWhile` fails the predicate. -/
theorem head?_dropWhile_false {p : α → Bool} {l : List α} {a : α}
    (h : (l.dropWhile p).head? = some a) : p a = false := by
  have hw := List.head?_dropWhile_not p l
  rw [h] at hw
  exact hw

/-- If the head (when present) fails the predicate, `dropWhile` is the
identity. -/
theorem dropWhile_of_head_false {p : α → Bool} {l : List α}
    (h : ∀ a, l.head? = some a → p a = false) : l.dropWhile p = l := by
  cases l with
  | nil => rfl
  | cons x xs => simp [List.dropWhile_cons, h x rfl]

/-- A nonempty `dropWhile` keeps the last element of the list. -/
theorem getLast?_dropWhile {p : α → Bool} :
    ∀ l : List α, l.dropWhile p ≠ [] → (l.dropWhile p).getLast? = l.getLast? := by
  intro l
  induction l with
  | nil => intro h; simp [List.dropWhile] at h
  | cons x xs ih =>
    intro h
    by_cases hx : p x
    · rw [List.dropWhile_cons_of_pos hx] at h ⊢
      have hxs : xs ≠ [] := by
        rintro rfl
        exact h rfl
      obtain ⟨y, hy⟩ := Option.isSome_iff_exists.mp (List.getLast?_isSome.mpr hxs)
      rw [ih h, List.getLast?_cons, hy]
      rfl
    · rw [List.dropWhile_cons_of_neg hx]

/-- The head of a stripped string is not whitespace. -/
theorem pyStrip_head_false {l : List Char} {a : Char}
    (h : (pyStrip l).head? = some a) : pyIsSpace a = false := by
  rw [pyStrip, List.head?_reverse] at h
  rcases hne : ((l.dropWhile pyIsSpace).reverse.dropWhile pyIsSpace) with _ | _
  · rw [hne] at h; simp at h
  · have hnn : (l.dropWhile pyIsSpace).reverse.dropWhile pyIsSpace ≠ [] := by
      rw [hne]; simp
    rw [getLast?_dropWhile _ hnn, List.getLast?_reverse] at h
    exact head?_dropWhile_false h

/-- The last character of a stripped string is not whitespace. -/
theorem pyStrip_getLast_false {l : List Char} {a : Char}
    (h : (pyStrip l).getLast? = some a) : pyIsSpace a = false := by
  rw [pyStrip, List.getLast?_reverse] at h
  exact head?_dropWhile_false h

/-- Stripping a string whose ends are already clean does nothing. -/
theorem pyStrip_of_clean {l : List Char}
    (h1 : ∀ a, l.head? = some a → pyIsSpace a = false)
    (h2 : ∀ a, l.getLast? = some a → pyIsSpace a = false) :
    pyStrip l = l := by
  rw [pyStrip, dropWhile_of_head_false h1, dropWhile_of_head_false, List.reverse_reverse]
  intro a ha
  rw [List.head?_reverse] at ha
  exact h2 a ha

/-- `str.strip()` is idempotent. -/
theorem pyStrip_idem (l : List Char) : pyStrip (pyStrip l) = pyStrip l :=
  pyStrip_of_clean (fun _ h => pyStrip_head_false h)
    (fun _ h => pyStrip_getLast_false h)

/-- Stripping only removes characters. -/
theorem mem_pyStrip {l : List Char} {c : Char} (h : c ∈ pyStrip l) : c ∈ l := by
  rw [pyStrip, List.mem_reverse] at h
  have h2 := List.dropWhile_subset pyIsSpace h
  rw [List.mem_reverse] at h2
  exact List.dropWhile_subset pyIsSpace h2

/-- Membership after the character-removal fold: an element survives iff
it was present and is none of the removed keys. -/
theorem mem_foldl_removeKeys {keys : List Char} :
    ∀ {l : List Char} {c : Char},
      (c ∈ keys.foldl (fun acc k => acc.filter (fun x => x ≠ k)) l ↔
        c ∈ l ∧ c ∉ keys) := by
  induction keys with
  | nil => intro l c; simp
  | cons k ks ih =>
    intro l c
    rw [List.foldl_cons, ih]
    simp only [List.mem_filter, List.mem_cons, decide_eq_true_iff]
    constructor
    · rintro ⟨⟨hc, hk⟩, hks⟩
      exact ⟨hc, by rintro (rfl | h) <;> [exact hk rfl; exact hks h]⟩
    · rintro ⟨hc, hck⟩
      exact ⟨⟨hc, fun h => hck (Or.inl h)⟩, fun h => hck (Or.inr h)⟩

/-- The character-removal fold does nothing on a clean string. -/
theorem foldl_removeKeys_of_clean {keys : List Char} :
    ∀ {l : List Char}, (∀ c ∈ l, c ∉ keys) →
      keys.foldl (fun acc k => acc.filter (fun x => x ≠ k)) l = l := by
  induction keys with
  | nil => intro l _; rfl
  | cons k ks ih =>
    intro l h
    rw [List.foldl_cons, List.filter_eq_self.mpr, ih]
    · intro c hc hcks
      exact h c hc (List.mem_cons_of_mem _ hcks)
    · intro c hc
      simp only [decide_eq_true_iff]
      intro rfl_eq
      exact h c hc (rfl_eq ▸ List.mem_cons_self _ _)

/-- Characters surviving `fix_name` are none of the removed specials. -/
theorem fixName_no_bad {l : List Char} {c : Char} (h : c ∈ fixName l) :
    c ∉ badChars :=
  (mem_foldl_removeKeys.mp (mem_pyStrip h)).2

/-- Claim C6 (amended): `fix_name` removes every occurrence of the ten
special characters and trims surrounding whitespace, so the result
contains none of those ten characters and neither starts nor ends with
whitespace; embedded line breaks and tabs, however, are preserved. -/
theorem claim6_thm (l : List Char) :
    (∀ c ∈ fixName l, c ∉ badChars) ∧
    (∀ c, (fixName l).head? = some c → pyIsSpace c = false) ∧
    (∀ c, (fixName l).getLast? = some c → pyIsSpace c = false) :=
  ⟨fun _ h => fixName_no_bad h,
   fun _ h => pyStrip_head_false h,
   fun _ h => pyStrip_getLast_false h⟩

/-- Witness for C6 at a concrete input. -/
theorem claim6_witness :
    'a' ∈ fixName [' ', '$', 'a', '\t'] ∧ 'a' ∉ badChars ∧
      pyIsSpace 'a' = false :=
  ⟨by decide, (claim6_thm [' ', '$', 'a', '\t']).1 'a' (by decide),
   (claim6_thm [' ', '$', 'a', '\t']).2.1 'a' (by decide)⟩

/-- Counterexample to C6 as stated: an embedded line break survives
`fix_name` (only *surrounding* whitespace is trimmed). -/
theorem claim6_counterexample :
    fixName ['a', '\n', 'b'] = ['a', '\n', 'b'] ∧
      '\n' ∈ fixName ['a', '\n', 'b'] := by
  decide

/-- Claim C10: `fix_name` is idempotent, so the second application during
image-filename derivation never changes an already-normalized name. -/
theorem claim10_thm (l : List Char) : fixName (fixName l) = fixName l := by
  rw [fixName, removeBad, foldl_removeKeys_of_clean (fun c hc => fixName_no_bad hc)]
  exact pyStrip_idem _

/-- Claim C7: for every zero-based page index, the target URL is the
search endpoint with the percent-encoded item keyword and page parameter
`p*2+1`. -/
theorem claim7_thm (p : Nat) :
    jdUrl p =
      "https://search.jd.com/Search?keyword=%E6%98%8E%E6%97%A5%E6%96%B9%E8%88%9F&page="
        ++ toString (p * 2 + 1) := by
  rw [jdUrl]
  congr 1

/- ### Lemmas about the scroll loop -/

/-- The dead guard: `0 in newdata` never holds, because Python compares
the int `0` against each of the six component *lists*. -/
theorem zeroMem_false (s : Snap) : zeroMem s = false := rfl

/-- The loop body never performs more iterations than its fuel. -/
theorem scrollGo_le (grab : Nat → Snap) (url : Nat → String) :
    ∀ (fuel k : Nat) (data : Snap), (scrollGo grab url fuel k data).2 ≤ fuel := by
  intro fuel
  induction fuel with
  | zero => intro k data; simp [scrollGo]
  | succ n ih =>
    intro k data
    rw [scrollGo]
    simp only [zeroMem_false, Bool.false_eq_true, if_false]
    cases hb : breakCond (url (k + 1)) with
    | true => simp
    | false =>
      simp only [Bool.false_eq_true, if_false]
      have := ih (k + 1) (grab (k + 1))
      omega

/-- When no anti-bot location is ever observed, the loop always consumes
all its fuel and ends on the grab of the last iteration: the `0 in`
guard can never cut it short. -/
theorem scrollGo_run (grab : Nat → Snap) (url : Nat → String)
    (hb : ∀ j, breakCond (url j) = false) :
    ∀ fuel, 1 ≤ fuel → ∀ (k : Nat) (data : Snap),
      scrollGo grab url fuel k data = (grab (k + fuel), fuel) := by
  intro fuel
  induction fuel with
  | zero => intro h; omega
  | succ n ih =>
    intro _ k data
    rw [scrollGo]
    simp only [zeroMem_false, Bool.false_eq_true, if_false, hb (k + 1)]
    cases n with
    | zero => simp [scrollGo]
    | succ m =>
      rw [ih (by omega) (k + 1) (grab (k + 1))]
      have harith : k + 1 + (m + 1) = k + (m + 1 + 1) := by omega
      rw [harith]

/-- Snapshots used in the concrete scroll scenarios. -/
def goodSnap : Snap := ⟨["n"], ["p"], ["u"], ["c"], ["s"], ["i"]⟩

/-- The all-empty snapshot: an extraction that yielded zero records. -/
def emptySnap : Snap := ⟨[], [], [], [], [], []⟩

/-- A grab sequence that returns data once and nothing from then on. -/
def grabDry (k : Nat) : Snap := if k = 0 then goodSnap else emptySnap

/-- A browser that always stays on the search page. -/
def searchUrl (_k : Nat) : String := "https://search.jd.com/Search"

/-- The search page matches neither anti-bot location pattern. -/
theorem searchUrl_clean (j : Nat) : breakCond (searchUrl j) = false := by
  show breakCond "https://search.jd.com/Search" = false
  decide

/-- Claim C3 (code bug): the loop is bounded by 12 iterations, but the
zero-records exit is dead code.  On a run whose extractions turn empty
after the initial grab, the loop still executes all 12 iterations and
returns the empty snapshot instead of the prior non-empty one, because
`0 in newdata` compares `0` with the six lists and is always `False`. -/
theorem claim3_thm :
    (∀ (grab : Nat → Snap) (url : Nat → String),
        (scrollModel grab url).2 ≤ 12) ∧
    scrollModel grabDry searchUrl = (emptySnap, 12) ∧
    zeroMem emptySnap = false ∧
    emptySnap ≠ goodSnap := by
  refine ⟨fun grab url => scrollGo_le grab url 12 0 (grab 0), ?_, rfl, by decide⟩
  rw [scrollModel, scrollGo_run grabDry searchUrl searchUrl_clean 12 (by omega) 0 (grabDry 0)]
  decide

/- ### Lemmas about zip and the consumed snapshot -/

/-- The length of Python's six-way `zip` is the minimum of the six
lengths, folded the way `min` over a tuple folds. -/
theorem zip6_length :
    ∀ a b c d e f : List String,
      (zip6 a b c d e f).length =
        ((((a.length.min b.length).min c.length).min d.length).min
            e.length).min f.length := by
  intro a b c d e f
  simp only [zip6, List.length_map, List.length_zip]

/-- Claim C4 (amended): no equal-cardinality check exists.  Record
assembly zips the six sequences down to the minimum length, and a
mismatched snapshot produced by the final extraction is itself what the
page task consumes — the previous snapshot is not restored. -/
theorem claim4_thm :
    (∀ s : Snap, (toRecords s).length = minLen6 s) ∧
    (∀ (prev mism : Snap) (url : Nat → String),
        (∀ k, breakCond (url k) = false) →
        scrollModel (fun k => if k = 0 then prev else mism) url = (mism, 12)) := by
  constructor
  · intro s
    exact zip6_length s.names s.prices s.urls s.comments s.shops s.imgUrls
  · intro prev mism url hb
    rw [scrollModel, scrollGo_run _ url hb 12 (by omega) 0 _]
    simp

/-- The previous, well-formed snapshot of the C4 scenario. -/
def prevSnap : Snap := ⟨["N"], ["P"], ["U"], ["C"], ["S"], ["I"]⟩

/-- A corrupt snapshot: six parallel sequences of unequal lengths
(comments is one short). -/
def mismSnap : Snap :=
  ⟨["a", "b"], ["1", "2"], ["u1", "u2"], ["c1"], ["s1", "s2"], ["i1", "i2"]⟩

/-- Witness for C4 at a concrete run. -/
theorem claim4_witness :
    scrollModel (fun k => if k = 0 then prevSnap else mismSnap) searchUrl =
        (mismSnap, 12) ∧
      (toRecords mismSnap).length = minLen6 mismSnap :=
  ⟨claim4_thm.2 prevSnap mismSnap searchUrl searchUrl_clean,
   claim4_thm.1 mismSnap⟩

/-- Counterexample to C4 as stated: the extraction of the last iteration
has unequal field cardinalities, yet the system hands exactly this
snapshot to consumption (zip-truncated to one record) rather than
flagging it corrupt and returning the previous 1/1/1/1/1/1 snapshot. -/
theorem claim4_counterexample :
    mismSnap.names.length ≠ mismSnap.comments.length ∧
    (scrollModel (fun k => if k = 0 then prevSnap else mismSnap)
        searchUrl).1 = mismSnap ∧
    mismSnap ≠ prevSnap ∧
    toRecords mismSnap = [⟨"a", "1", "u1", "c1", "s1", "i1"⟩] := by
  decide

/- ### Media-fetch batching (C1) -/

/-- Claim C1 (amended): with 12 image URLs and `step = 5`, the loop
`for i in range(len(img_urls) // step)` issues exactly 2 batches, both of
size 5, processed in order with a full `gather` barrier between them
(batch `i+1` is built only after batch `i` resolved); the first 10 URLs
are each attempted exactly once, and the final 2 URLs are never
attempted. -/
theorem claim1_thm {α : Type} (urls : List α) (h : urls.length = 12) :
    (mediaBatches urls).length = 2 ∧
    (∀ b ∈ mediaBatches urls, b.length = 5) ∧
    (mediaBatches urls).flatten = urls.take 10 := by
  have hq : urls.length / imgStep = 2 := by rw [h]; rfl
  have hb : mediaBatches urls = [urls.take 5, (urls.drop 5).take 5] := by
    rw [mediaBatches, hq]
    rw [show List.range 2 = [0, 1] from rfl]
    simp [imgStep]
  refine ⟨by rw [hb]; rfl, ?_, ?_⟩
  · intro b hbmem
    rw [hb] at hbmem
    simp only [List.mem_cons, List.not_mem_nil, or_false] at hbmem
    rcases hbmem with rfl | rfl
    · rw [List.length_take, h]; decide
    · rw [List.length_take, List.length_drop, h]; decide
  · rw [hb]
    simp only [List.flatten_cons, List.flatten_nil, List.append_nil]
    rw [show (10 : Nat) = 5 + 5 from rfl, List.take_add]

/-- Witness for C1 on a concrete 12-element URL list. -/
theorem claim1_witness :
    (List.range 12).length = 12 ∧ (mediaBatches (List.range 12)).length = 2 :=
  ⟨rfl, (claim1_thm (List.range 12) rfl).1⟩

/-- Counterexample to C1 as stated: 12 URLs with concurrency 5 do not
produce 3 batches of sizes 5, 5, 2 — the floor division drops the
remainder, so only 2 batches are issued and the 11th and 12th URLs are
never attempted. -/
theorem claim1_counterexample :
    mediaBatches (List.range 12) = [[0, 1, 2, 3, 4], [5, 6, 7, 8, 9]] ∧
    (mediaBatches (List.range 12)).length ≠ 3 ∧
    (10 : Nat) ∉ (mediaBatches (List.range 12)).flatten ∧
    (11 : Nat) ∉ (mediaBatches (List.range 12)).flatten := by
  decide

/- ### Media-fetch per-item behaviour (C2, C9) -/

/-- The log entry produced by `get_img` for one item, if any: a
`ClientError` logs the URL, any other exception logs the path, a
response (whatever its status) logs nothing. -/
def expectedLog (net : String → Net) (it : String × String) :
    Option LogEntry :=
  match net it.1 with
  | .resp _ _ => none
  | .clientError => some (.clientFail it.1)
  | .otherError => some (.saveFail (derivedPath it.2 it.1))

/-- Effect of one batch on the bookkeeping fields, over any starting
state: every item is attempted exactly once in order, the success list
gains exactly the derived paths of the items whose GET returned a
response (of any status), and the log gains exactly the entries of the
failing items. -/
theorem runBatch_fields (net : String → Net) :
    ∀ (items : List (String × String)) (st : FetchState),
      (runBatch net st items).attempts = st.attempts ++ items.map Prod.fst ∧
      (runBatch net st items).fps =
        st.fps ++ (items.filter (fun it => (net it.1).isResp)).map
          (fun it => derivedPath it.2 it.1) ∧
      (runBatch net st items).log =
        st.log ++ items.filterMap (expectedLog net) := by
  intro items
  induction items with
  | nil => intro st; simp [runBatch]
  | cons it rest ih =>
    intro st
    obtain ⟨u, n⟩ := it
    have hstep : runBatch net st ((u, n) :: rest) =
        runBatch net (getImg net st u n) rest := by
      rw [runBatch, List.foldl_cons]; rfl
    obtain ⟨ha, hf, hl⟩ := ih (getImg net st u n)
    rw [hstep]
    cases hn : net u with
    | resp status body =>
      refine ⟨?_, ?_, ?_⟩
      · rw [ha]; simp [getImg, hn]
      · rw [hf]; simp [getImg, hn, Net.isResp]
      · rw [hl]; simp [getImg, hn, expectedLog]
    | clientError =>
      refine ⟨?_, ?_, ?_⟩
      · rw [ha]; simp [getImg, hn]
      · rw [hf]; simp [getImg, hn, Net.isResp]
      · rw [hl]; simp [getImg, hn, expectedLog]
    | otherError =>
      refine ⟨?_, ?_, ?_⟩
      · rw [ha]; simp [getImg, hn]
      · rw [hf]; simp [getImg, hn, Net.isResp]
      · rw [hl]; simp [getImg, hn, expectedLog]

/-- Claim C9 (amended): within a batch every URL is fetched exactly once
(never retried); an `aiohttp.ClientError` (network error, timeout) is
logged with the failing URL and the item is excluded from the
successfully-downloaded set; any other per-item exception is logged with
the file path and likewise excluded; no failure aborts the sibling
downloads or the batch.  A non-success HTTP response, however, is not
detected: its body is saved and the item counts as successfully
downloaded. -/
theorem claim9_thm (net : String → Net) (items : List (String × String))
    (fs₀ : FS) :
    (runBatch net ⟨fs₀, [], [], []⟩ items).attempts = items.map Prod.fst ∧
    (runBatch net ⟨fs₀, [], [], []⟩ items).fps =
      (items.filter (fun it => (net it.1).isResp)).map
        (fun it => derivedPath it.2 it.1) ∧
    (runBatch net ⟨fs₀, [], [], []⟩ items).log =
      items.filterMap (expectedLog net) := by
  obtain ⟨ha, hf, hl⟩ := runBatch_fields net items ⟨fs₀, [], [], []⟩
  exact ⟨by rw [ha]; rfl, by rw [hf]; rfl, by rw [hl]; rfl⟩

/-- A network in which the first URL yields an HTTP 404, the second an
HTTP 200, and anything else a `ClientError`. -/
def net404 : String → Net := fun u =>
  if u = "https://img/a.jpg" then .resp 404 "NOTFOUND"
  else if u = "https://img/b.jpg" then .resp 200 "IMG"
  else .clientError

/-- Counterexample to C9 as stated: a non-success (404) response is not
excluded from the successfully-downloaded set — its derived path is
appended to `fps` and its body written, exactly like a 200. -/
theorem claim9_counterexample :
    net404 "https://img/a.jpg" = .resp 404 "NOTFOUND" ∧
    (runBatch net404 ⟨fsEmpty, [], [], []⟩
        [("https://img/a.jpg", "x"), ("https://img/b.jpg", "y")]).fps =
      ["x.jpg", "y.jpg"] ∧
    (runBatch net404 ⟨fsEmpty, [], [], []⟩
        [("https://img/a.jpg", "x"), ("https://img/b.jpg", "y")]).fs
        "x.jpg" = some "NOTFOUND" := by
  refine ⟨rfl, by decide, rfl⟩

/-- Claim C2 (amended): `get_img` derives the file name solely from
`fix_name(name)` and the URL extension, with no existence probing and no
integer suffixes: two downloads whose derived keys collide write to the
identical path, the second overwriting the first (and overwriting any
pre-existing file at that path), while files at every other path are
left unchanged. -/
theorem claim2_thm (net : String → Net) (fs₀ : FS)
    (u1 n1 u2 n2 b1 b2 : String) (s1 s2 : Nat)
    (h1 : net u1 = .resp s1 b1) (h2 : net u2 = .resp s2 b2)
    (hc : derivedPath n1 u1 = derivedPath n2 u2) :
    (getImg net (getImg net ⟨fs₀, [], [], []⟩ u1 n1) u2 n2).fs
        (derivedPath n2 u2) = some b2 ∧
    (∀ q, q ≠ derivedPath n2 u2 →
      (getImg net (getImg net ⟨fs₀, [], [], []⟩ u1 n1) u2 n2).fs q = fs₀ q) := by
  rw [getImg, getImg]
  simp only [h1, h2]
  constructor
  · rw [fsWrite, if_pos rfl]
  · intro q hq
    rw [fsWrite]
    rw [if_neg hq, fsWrite, if_neg (hc ▸ hq)]

/-- A filesystem holding one pre-existing image file. -/
def exFs : FS := fun q => if q = "pic.jpg" then some "OLD" else none

/-- A network serving two distinct URLs whose downloads collide on the
derived name `pic.jpg`. -/
def exNet : String → Net := fun u =>
  if u = "https://x/a.jpg" then .resp 200 "NEW1"
  else .resp 200 "NEW2"

/-- Witness for C2 at a concrete colliding pair. -/
theorem claim2_witness :
    (getImg exNet (getImg exNet ⟨exFs, [], [], []⟩ "https://x/a.jpg" "pic")
        "https://y/b.jpg" "pic").fs "pic.jpg" = some "NEW2" ∧
    (getImg exNet (getImg exNet ⟨exFs, [], [], []⟩ "https://x/a.jpg" "pic")
        "https://y/b.jpg" "pic").fs "other.png" = exFs "other.png" :=
  ⟨(claim2_thm exNet exFs "https://x/a.jpg" "pic" "https://y/b.jpg" "pic"
      "NEW1" "NEW2" 200 200 (by decide) (by decide) (by decide)).1,
   (claim2_thm exNet exFs "https://x/a.jpg" "pic" "https://y/b.jpg" "pic"
      "NEW1" "NEW2" 200 200 (by decide) (by decide) (by decide)).2
     "other.png" (by decide)⟩

/-- Counterexample to C2 as stated: the very first download already
clobbers a pre-existing file of the same derived name — no integer
suffix is probed, and the old content is lost. -/
theorem claim2_counterexample :
    exFs "pic.jpg" = some "OLD" ∧
    (getImg exNet ⟨exFs, [], [], []⟩ "https://x/a.jpg" "pic").fs "pic.jpg" =
      some "NEW1" ∧
    some "NEW1" ≠ some "OLD" ∧
    (getImg exNet ⟨exFs, [], [], []⟩ "https://x/a.jpg" "pic").fs "pic.jpg0" =
      none ∧
    (getImg exNet ⟨exFs, [], [], []⟩ "https://x/a.jpg" "pic").fs "pic0.jpg" =
      none := by
  refine ⟨rfl, rfl, by decide, rfl, rfl⟩

/- ### Media normalisation (C5) -/

/-- A path is never equal to its derived PNG path. -/
theorem ne_pngName (fp : String) : fp ≠ pngName fp := by
  intro h
  have hlen := congrArg (fun s => s.data.length) h
  simp only [pngName, String.data_append, List.length_append,
    List.length_cons, List.length_nil] at hlen
  omega

/-- Claim C5: the source file is deleted iff the canonical PNG was
successfully written; a failure at open or encode leaves the whole
filesystem — in particular the source file — untouched, and only the
source path and its PNG path are ever affected, so no other file's
normalization is disturbed. -/
theorem claim5_thm (encode : String → String) (ok : String → Bool × Bool)
    (fs : FS) (fp c : String)
    (hsrc : fs fp = some c) (hpng : fs (pngName fp) = none) :
    ((solveImage encode ok fs fp) fp = none ↔
      (solveImage encode ok fs fp) (pngName fp) = some (encode c)) ∧
    (¬((ok fp).1 = true ∧ (ok fp).2 = true) → solveImage encode ok fs fp = fs) ∧
    (∀ q, q ≠ fp → q ≠ pngName fp → (solveImage encode ok fs fp) q = fs q) := by
  by_cases ho : (ok fp).1 = true
  · by_cases he : (ok fp).2 = true
    · have hs : solveImage encode ok fs fp =
          fsRemove fp (fsWrite (pngName fp) (encode ((fs fp).getD "")) fs) := by
        rw [solveImage, if_pos ho, if_pos he]
      rw [hs, hsrc]
      refine ⟨?_, fun hcon => absurd ⟨ho, he⟩ hcon, ?_⟩
      · constructor
        · intro _
          show (if pngName fp = fp then none
            else fsWrite (pngName fp) (encode ((some c).getD "")) fs
              (pngName fp)) = some (encode c)
          rw [if_neg (Ne.symm (ne_pngName fp))]
          show (if pngName fp = pngName fp then some (encode ((some c).getD ""))
            else fs (pngName fp)) = some (encode c)
          rw [if_pos rfl]
          rfl
        · intro _
          show (if fp = fp then none else _) = none
          rw [if_pos rfl]
      · intro q hq hqp
        show (if q = fp then none
          else fsWrite (pngName fp) (encode ((some c).getD "")) fs q) = fs q
        rw [if_neg hq]
        show (if q = pngName fp then some (encode ((some c).getD ""))
          else fs q) = fs q
        rw [if_neg hqp]
    · have hs : solveImage encode ok fs fp = fs := by
        rw [solveImage, if_pos ho, if_neg he]
      rw [hs]
      refine ⟨?_, fun _ => rfl, fun q _ _ => rfl⟩
      rw [hsrc, hpng]
      simp
  · have hs : solveImage encode ok fs fp = fs := by
      rw [solveImage, if_neg ho]
    rw [hs]
    refine ⟨?_, fun _ => rfl, fun q _ _ => rfl⟩
    rw [hsrc, hpng]
    simp

/-- A filesystem holding one downloaded AVIF image awaiting conversion. -/
def rawFs : FS := fun q => if q = "shop pic.avif" then some "RAW" else none

/-- Witness for C5: a successful conversion writes the PNG and deletes
the source; an untouched third path is unchanged. -/
theorem claim5_witness :
    ((solveImage (fun s => "P" ++ s) (fun _ => (true, true)) rawFs
        "shop pic.avif") "shop pic.avif" = none ↔
      (solveImage (fun s => "P" ++ s) (fun _ => (true, true)) rawFs
        "shop pic.avif") (pngName "shop pic.avif") = some ("P" ++ "RAW")) ∧
    (solveImage (fun s => "P" ++ s) (fun _ => (true, true)) rawFs
        "shop pic.avif") "unrelated.jpg" = rawFs "unrelated.jpg" :=
  ⟨(claim5_thm (fun s => "P" ++ s) (fun _ => (true, true)) rawFs
      "shop pic.avif" "RAW" (by decide) (by decide)).1,
   (claim5_thm (fun s => "P" ++ s) (fun _ => (true, true)) rawFs
      "shop pic.avif" "RAW" (by decide) (by decide)).2.2
     "unrelated.jpg" (by decide) (by decide)⟩

/- ### Anti-bot classification and retry (C8) -/

/-- Claim C8: a page task is classified as a login redirect exactly when
the location mentions the login portal and the minimum field-sequence
length is below 20; every snapshot a run accepts is accepted for the
page index the task was started with; and a run whose first two attempts
hit the login redirect and whose third is clean accepts the third
attempt's snapshot for that same page index. -/
theorem claim8_thm :
    (∀ (u : String) (s : Snap),
        loginRedirect u s = true ↔
          (pyIn "passport.jd" u = true ∧ minLen6 s < 20)) ∧
    (∀ (page : Nat) (attempts : List (String × Snap)) (r : Nat × Snap),
        jdRun page attempts = some r → r.1 = page) ∧
    (∀ (page : Nat) (e1 e2 e3 : String × Snap),
        loginRedirect e1.1 e1.2 = true → loginRedirect e2.1 e2.2 = true →
        loginRedirect e3.1 e3.2 = false → pyIn "cfe.m.jd" e3.1 = false →
        jdRun page [e1, e2, e3] = some (page, e3.2)) := by
  refine ⟨?_, ?_, ?_⟩
  · intro u s
    rw [loginRedirect, Bool.and_eq_true, decide_eq_true_iff]
  · intro page attempts
    induction attempts with
    | nil => intro r h; rw [jdRun] at h; exact absurd h (by simp)
    | cons e rest ih =>
      obtain ⟨url, snap⟩ := e
      intro r h
      rw [jdRun] at h
      by_cases h1 : loginRedirect url snap = true
      · rw [if_pos h1] at h; exact ih r h
      · rw [if_neg h1] at h
        by_cases h2 : pyIn "cfe.m.jd" url = true
        · rw [if_pos h2] at h; exact ih r h
        · rw [if_neg h2] at h
          injection h with h'
          rw [← h']
  · intro page e1 e2 e3 h1 h2 h3 h4
    obtain ⟨u1, s1⟩ := e1
    obtain ⟨u2, s2⟩ := e2
    obtain ⟨u3, s3⟩ := e3
    rw [jdRun, if_pos h1, jdRun, if_pos h2, jdRun,
      if_neg (by simp [h3]), if_neg (by simp [h4])]

/-- The near-empty snapshot served along with a login redirect. -/
def redirSnap : Snap := ⟨[], [], [], [], [], []⟩

/-- A normal snapshot of one full record. -/
def contentSnap : Snap := ⟨["n"], ["p"], ["u"], ["c"], ["s"], ["i"]⟩

/-- Witness for C8: two login redirects for page 7 followed by normal
content end with the page-7 task accepting the third snapshot. -/
theorem claim8_witness :
    jdRun 7
        [("https://passport.jd.com/new/login.aspx", redirSnap),
         ("https://passport.jd.com/new/login.aspx", redirSnap),
         ("https://search.jd.com/Search", contentSnap)] =
      some (7, contentSnap) :=
  claim8_thm.2.2 7 _ _ _ (by decide) (by decide) (by decide) (by decide)

end JdSpider
